import Mathlib

/-!
Shallow embedding of the `valhalla-rs` crate (road-graph tile engine bindings):
the `GraphId` codec, the `LiveTraffic` codec, the traffic-tile writer, the
graph-tile single-record accessors, the speed resolver, the response facade
and the JSON request parser, together with theorems settling the spec claims.
Machine integers are modelled as `Nat` with explicit bounds where overflow or
truncation matters.
-/

/-- Identifier of a node or an edge within the tiled, hierarchical graph.
Mirrors `ffi::GraphId { value: u64 }` from `src/lib.rs`. -/
structure GraphId where
  value : Nat
  deriving DecidableEq

/-- `impl PartialEq for GraphId` from `src/lib.rs`: compares the full
underlying 64-bit word (`self.value == other.value`). -/
def GraphId.beq (a b : GraphId) : Bool :=
  a.value == b.value

/-- `impl Hash for GraphId` from `src/lib.rs`: feeds the full underlying word
into the hasher (`self.value.hash(state)`); the hasher itself is an arbitrary
function of that word. -/
def GraphId.hashWith (h : Nat → Nat) (g : GraphId) : Nat :=
  h g.value

/-- The low 46 bits of the underlying word: the payload
`[ level:3 | tile:22 | id:21 ]` of the bit layout. -/
def GraphId.low46 (g : GraphId) : Nat :=
  g.value % 70368744177664

/-- Modelled from the spec: the C++ accessor `GraphId::level()` is not in the
crate sources; per the bit layout `[ level:3 | tile:22 | id:21 | unused:18 ]`
(LSB order) the level is the low 3 bits. -/
def GraphId.level (g : GraphId) : Nat :=
  g.value % 8

/-- Modelled from the spec: the C++ accessor `GraphId::tileid()` is not in the
crate sources; per the bit layout the tile id occupies 22 bits at bit 3. -/
def GraphId.tileid (g : GraphId) : Nat :=
  (g.value / 8) % 4194304

/-- Modelled from the spec: the C++ accessor `GraphId::id()` is not in the
crate sources; per the bit layout the id occupies 21 bits at bit 25. -/
def GraphId.id (g : GraphId) : Nat :=
  (g.value / 33554432) % 2097152

/-- Modelled from the spec: the C++ `ffi::from_parts` is not in the crate
sources; `pack` fails if `level ≥ 8` or `tile ≥ 2²²` or `id ≥ 2²¹` and
otherwise packs `[ level:3 | tile:22 | id:21 ]` in LSB order (the fields are
disjoint, so bitwise-or of the shifted fields equals their sum). The Rust
wrapper `GraphId::from_parts` maps the error to `None`. -/
def GraphId.from_parts (level tileid id : Nat) : Option GraphId :=
  if level < 8 ∧ tileid < 4194304 ∧ id < 2097152 then
    some ⟨level + tileid * 8 + id * 33554432⟩
  else
    none

/-- Claim C5: for `l < 8`, `t < 2²²`, `i < 2²¹` the pack succeeds and
round-trips through `level()`, `tileid()` and `id()`; any triple violating a
bound yields `None`. -/
theorem from_parts_roundtrip (l t i : Nat) :
    (l < 8 → t < 4194304 → i < 2097152 →
      ∃ g, GraphId.from_parts l t i = some g ∧
        g.level = l ∧ g.tileid = t ∧ g.id = i) ∧
    (8 ≤ l ∨ 4194304 ≤ t ∨ 2097152 ≤ i → GraphId.from_parts l t i = none) := by
  constructor
  · intro hl ht hi
    refine ⟨⟨l + t * 8 + i * 33554432⟩, ?_, ?_, ?_, ?_⟩
    · simp [GraphId.from_parts, hl, ht, hi]
    · show (l + t * 8 + i * 33554432) % 8 = l
      omega
    · show (l + t * 8 + i * 33554432) / 8 % 4194304 = t
      omega
    · show (l + t * 8 + i * 33554432) / 33554432 % 2097152 = i
      omega
  · intro h
    simp only [GraphId.from_parts, ite_eq_right_iff]
    intro hb
    omega

/-- Witness for C5 at the spec's own test vector `pack(2, 838852, 161285)`,
whose packed value is `5411833275938`. -/
theorem from_parts_roundtrip_witness :
    ∃ g, GraphId.from_parts 2 838852 161285 = some g ∧
      g.level = 2 ∧ g.tileid = 838852 ∧ g.id = 161285 :=
  (from_parts_roundtrip 2 838852 161285).1 (by decide) (by decide) (by decide)

/-- Counterexample to claim C1: the ids with words `0` and `2⁴⁶` agree on the
low 46 bits and differ in the top 18 bits, yet `==` returns `false` and the
hasher input differs, because `PartialEq`/`Hash` use the full word. -/
theorem graphid_eq_full_word_counterexample :
    GraphId.low46 ⟨0⟩ = GraphId.low46 ⟨70368744177664⟩ ∧
    (GraphId.mk 0).value ≠ (GraphId.mk 70368744177664).value ∧
    GraphId.beq ⟨0⟩ ⟨70368744177664⟩ = false ∧
    GraphId.hashWith (fun n => n) ⟨0⟩ ≠
      GraphId.hashWith (fun n => n) ⟨70368744177664⟩ := by
  refine ⟨rfl, by decide, by decide, by decide⟩

/-- Claim C1 amended: equality and hashing use the full 64-bit word, not the
46-bit payload: two ids with equal low 46 bits but different words compare
unequal and feed different inputs to the hasher. -/
theorem graphid_eq_full_word (g1 g2 : GraphId)
    (_hlow : g1.low46 = g2.low46) (hne : g1.value ≠ g2.value) :
    GraphId.beq g1 g2 = false ∧
    GraphId.hashWith (fun n => n) g1 ≠ GraphId.hashWith (fun n => n) g2 := by
  refine ⟨?_, ?_⟩
  · simpa [GraphId.beq] using hne
  · simpa [GraphId.hashWith] using hne

/-- Witness for the amended C1 at the concrete pair `0` and `2⁴⁶`. -/
theorem graphid_eq_full_word_witness :
    GraphId.beq ⟨0⟩ ⟨70368744177664⟩ = false ∧
    GraphId.hashWith (fun n => n) ⟨0⟩ ≠
      GraphId.hashWith (fun n => n) ⟨70368744177664⟩ :=
  graphid_eq_full_word ⟨0⟩ ⟨70368744177664⟩ rfl (by decide)

/-- Real-time traffic record for a single edge.
Mirrors `LiveTraffic(u64)` from `src/lib.rs`. -/
structure LiveTraffic where
  bits : Nat
  deriving DecidableEq

/-- `LiveTraffic::UNKNOWN = Self(0)` from `src/lib.rs`. -/
def LiveTraffic.UNKNOWN : LiveTraffic := ⟨0⟩

/-- `LiveTraffic::CLOSED = Self(255u64 << 28)` from `src/lib.rs`:
breakpoint1 set to 255 with overall encoded speed 0. -/
def LiveTraffic.CLOSED : LiveTraffic := ⟨255 <<< 28⟩

/-- `LiveTraffic::to_bits` from `src/lib.rs`. -/
def LiveTraffic.to_bits (t : LiveTraffic) : Nat := t.bits

/-- `LiveTraffic::from_segmented_speeds` from `src/lib.rs`: each speed is
encoded as `speed >> 1` into a 7-bit field, the two breakpoints into 8-bit
fields, all combined with bitwise-or of left shifts. Inputs are `u8`. -/
def LiveTraffic.from_segmented_speeds (overall_speed : Nat)
    (subsegment_speeds : Nat × Nat × Nat) (breakpoints : Nat × Nat) :
    LiveTraffic :=
  let overall_encoded := overall_speed >>> 1
  let speed1_encoded := subsegment_speeds.1 >>> 1
  let speed2_encoded := subsegment_speeds.2.1 >>> 1
  let speed3_encoded := subsegment_speeds.2.2 >>> 1
  let bp1 := breakpoints.1
  let bp2 := breakpoints.2
  ⟨overall_encoded |||
    (speed1_encoded <<< 7) |||
    (speed2_encoded <<< 14) |||
    (speed3_encoded <<< 21) |||
    (bp1 <<< 28) |||
    (bp2 <<< 36)⟩

/-- `LiveTraffic::from_uniform_speed` from `src/lib.rs`: segmented speeds
`[speed, 0, 0]` with breakpoints `[255, 0]`. -/
def LiveTraffic.from_uniform_speed (speed : Nat) : LiveTraffic :=
  LiveTraffic.from_segmented_speeds speed (speed, 0, 0) (255, 0)

/-- Overall encoded speed: the low 7 bits of the record
(per the authoritative bit layout). -/
def LiveTraffic.overall_encoded_speed (t : LiveTraffic) : Nat :=
  t.bits % 128

/-- Decoded overall speed in km/h: the encoded 7-bit value times two. -/
def LiveTraffic.overall_speed (t : LiveTraffic) : Nat :=
  2 * t.overall_encoded_speed

/-- First breakpoint: the 8 bits of the record at bit 28
(per the authoritative bit layout). -/
def LiveTraffic.breakpoint1 (t : LiveTraffic) : Nat :=
  (t.bits / 268435456) % 256

set_option maxRecDepth 16384

/-- Claim C9: `from_uniform_speed` maps 0 and 1 km/h bit-for-bit onto the
CLOSED sentinel, and every even speed of at least 2 km/h onto a record that
is neither CLOSED nor UNKNOWN. -/
theorem from_uniform_speed_closed (s : Nat) (hs : s < 256) :
    ((s = 0 ∨ s = 1) →
      (LiveTraffic.from_uniform_speed s).to_bits = 255 <<< 28 ∧
      LiveTraffic.from_uniform_speed s = LiveTraffic.CLOSED) ∧
    (s % 2 = 0 → 2 ≤ s →
      LiveTraffic.from_uniform_speed s ≠ LiveTraffic.CLOSED ∧
      LiveTraffic.from_uniform_speed s ≠ LiveTraffic.UNKNOWN) := by
  revert s
  decide

/-- Witness for C9 at the concrete speeds 1 (closed) and 72 (regular). -/
theorem from_uniform_speed_closed_witness :
    LiveTraffic.from_uniform_speed 1 = LiveTraffic.CLOSED ∧
    LiveTraffic.from_uniform_speed 72 ≠ LiveTraffic.CLOSED ∧
    LiveTraffic.from_uniform_speed 72 ≠ LiveTraffic.UNKNOWN :=
  ⟨((from_uniform_speed_closed 1 (by decide)).1 (Or.inr rfl)).2,
    (from_uniform_speed_closed 72 (by decide)).2 (by decide) (by decide)⟩

/-- Error raised by the traffic-tile by-index operations. -/
inductive TrafficError
  | outOfRange
  deriving DecidableEq

/-- State of a mmap-backed traffic tile: `TrafficTileHeader` fields
(`last_update`, `spare`) plus the `edge_count`-long array of 64-bit
`LiveTraffic` records, stored here as raw words. -/
structure TrafficTileState where
  last_update : Nat
  spare : Nat
  edges : List Nat
  deriving DecidableEq

/-- `TrafficTile::edge_count` - the number of records in the tile. -/
def TrafficTileState.edge_count (t : TrafficTileState) : Nat :=
  t.edges.length

/-- Modelled from the spec: the C++ `ffi::write_edge_traffic` is not in the
crate sources; per the spec a write with `i ≥ edge_count` fails with
`OutOfRange` (surfaced as `Result`), otherwise the 64-bit record is stored. -/
def ffi_write_edge_traffic (t : TrafficTileState) (i : Nat) (v : Nat) :
    Except TrafficError TrafficTileState :=
  if i < t.edges.length then
    Except.ok { t with edges := t.edges.set i v }
  else
    Except.error TrafficError.outOfRange

/-- `TrafficTile::write_edge_traffic` from `src/lib.rs`: the public wrapper
runs `let _ = ffi::write_edge_traffic(self, edge_index, traffic.0);`,
discarding the `Result` and returning unit, so the caller observes only the
(possibly unchanged) tile state. -/
def TrafficTileState.write_edge_traffic (t : TrafficTileState) (i : Nat)
    (v : Nat) : TrafficTileState :=
  match ffi_write_edge_traffic t i v with
  | Except.ok t2 => t2
  | Except.error _ => t

/-- `TrafficTile::edge_traffic` from `src/lib.rs`: the record at the index as
a `LiveTraffic`, or `None` when the ffi call errors out of range. -/
def TrafficTileState.edge_traffic (t : TrafficTileState) (i : Nat) :
    Option LiveTraffic :=
  (t.edges[i]?).map LiveTraffic.mk

/-- Modelled from the spec: the C++ `ffi::clear_traffic` is not in the crate
sources; per its declaration comment and the spec it zeros every edge record
and the last-update time, leaving the spare field unchanged. -/
def TrafficTileState.clear_traffic (t : TrafficTileState) : TrafficTileState :=
  { last_update := 0, spare := t.spare,
    edges := List.replicate t.edges.length 0 }

/-- Counterexample to claim C2: on a one-edge tile, a write at index 1 makes
the internal ffi call fail with `OutOfRange`, but the public
`write_edge_traffic` discards that failure and hands back the unchanged tile,
so no error reaches the caller. -/
theorem write_edge_traffic_counterexample :
    ffi_write_edge_traffic ⟨0, 0, [0]⟩ 1 7 = Except.error TrafficError.outOfRange ∧
    TrafficTileState.write_edge_traffic ⟨0, 0, [0]⟩ 1 7 = ⟨0, 0, [0]⟩ :=
  ⟨rfl, rfl⟩

/-- Claim C2 amended: for `i ≥ edge_count` the internal
`ffi::write_edge_traffic` fails with `OutOfRange`, but the public
`write_edge_traffic` swallows that error and leaves the tile unchanged
(the failure is not reported); for `i < edge_count` the write succeeds and
stores the record. -/
theorem write_edge_traffic_out_of_range (t : TrafficTileState) (i v : Nat) :
    (i < t.edge_count →
      ffi_write_edge_traffic t i v = Except.ok { t with edges := t.edges.set i v } ∧
      t.write_edge_traffic i v = { t with edges := t.edges.set i v }) ∧
    (t.edge_count ≤ i →
      ffi_write_edge_traffic t i v = Except.error TrafficError.outOfRange ∧
      t.write_edge_traffic i v = t) := by
  refine ⟨fun h => ?_, fun h => ?_⟩
  · have hc : i < t.edges.length := h
    simp [ffi_write_edge_traffic, TrafficTileState.write_edge_traffic, hc]
  · have hc : ¬ i < t.edges.length := by
      simp only [TrafficTileState.edge_count] at h
      omega
    simp [ffi_write_edge_traffic, TrafficTileState.write_edge_traffic, hc]

/-- Witness for the amended C2: an in-range write stores the record and an
out-of-range write is a silent no-op on a concrete one-edge tile. -/
theorem write_edge_traffic_out_of_range_witness :
    (ffi_write_edge_traffic ⟨0, 0, [0]⟩ 0 7 =
        Except.ok { TrafficTileState.mk 0 0 [0] with edges := [0].set 0 7 } ∧
      TrafficTileState.write_edge_traffic ⟨0, 0, [0]⟩ 0 7 =
        { TrafficTileState.mk 0 0 [0] with edges := [0].set 0 7 }) ∧
    (ffi_write_edge_traffic ⟨0, 0, [0]⟩ 1 7 = Except.error TrafficError.outOfRange ∧
      TrafficTileState.write_edge_traffic ⟨0, 0, [0]⟩ 1 7 = ⟨0, 0, [0]⟩) :=
  ⟨(write_edge_traffic_out_of_range ⟨0, 0, [0]⟩ 0 7).1 (by decide),
    (write_edge_traffic_out_of_range ⟨0, 0, [0]⟩ 1 7).2 (by decide)⟩

/-- Claim C7: after `clear_traffic()` every in-range record reads as the
all-zero UNKNOWN sentinel and `last_update` is 0, while `spare` and the edge
count keep exactly their previous values. -/
theorem clear_traffic_frame (t : TrafficTileState) (i : Nat) :
    (i < t.edge_count →
      t.clear_traffic.edge_traffic i = some LiveTraffic.UNKNOWN) ∧
    t.clear_traffic.last_update = 0 ∧
    t.clear_traffic.spare = t.spare ∧
    t.clear_traffic.edge_count = t.edge_count := by
  refine ⟨fun h => ?_, rfl, rfl, ?_⟩
  · have hc : i < t.edges.length := h
    simp [TrafficTileState.clear_traffic, TrafficTileState.edge_traffic,
      List.getElem?_replicate, hc, LiveTraffic.UNKNOWN]
  · simp [TrafficTileState.clear_traffic, TrafficTileState.edge_count]

/-- Witness for C7 on a concrete tile with one nonzero record, nonzero
`last_update` and nonzero `spare`. -/
theorem clear_traffic_frame_witness :
    TrafficTileState.edge_traffic
        (TrafficTileState.clear_traffic ⟨101, 999, [42]⟩) 0 =
      some LiveTraffic.UNKNOWN ∧
    (TrafficTileState.clear_traffic ⟨101, 999, [42]⟩).last_update = 0 ∧
    (TrafficTileState.clear_traffic ⟨101, 999, [42]⟩).spare =
      (TrafficTileState.mk 101 999 [42]).spare ∧
    (TrafficTileState.clear_traffic ⟨101, 999, [42]⟩).edge_count =
      (TrafficTileState.mk 101 999 [42]).edge_count :=
  ⟨(clear_traffic_frame ⟨101, 999, [42]⟩ 0).1 (by decide),
    (clear_traffic_frame ⟨101, 999, [42]⟩ 0).2.1,
    (clear_traffic_frame ⟨101, 999, [42]⟩ 0).2.2.1,
    (clear_traffic_frame ⟨101, 999, [42]⟩ 0).2.2.2⟩

/-- Modelled from the spec: the C++ helper `ffi::live_speed` is not in the
crate sources; its declaration comment in `src/lib.rs` says it "returns 0 if
the edge is closed, 255 if live speed in unknown and speed in km/h
otherwise", with the edge-closed predicate per the spec (overall speed 0 and
breakpoint1 = 255) and UNKNOWN the all-zero record. -/
def ffi_live_speed (t : LiveTraffic) : Nat :=
  if t.overall_encoded_speed = 0 ∧ t.breakpoint1 = 255 then 0
  else if t = LiveTraffic.UNKNOWN then 255
  else t.overall_speed

/-- `GraphTile::live_speed` from `src/lib.rs`: maps the ffi result
`0 ↦ Some(0)` (closed), `255 ↦ None` (unknown) and any other value
`s ↦ Some(s)`. -/
def live_speed (t : LiveTraffic) : Option Nat :=
  match ffi_live_speed t with
  | 0 => some 0
  | 255 => none
  | s => some s

/-- On any record other than UNKNOWN, `live_speed` returns the decoded
overall speed: the closed branch returns 0, which equals the decoded speed of
a closed record, and a decoded speed can never hit the 255 sentinel because
it is even. -/
theorem live_speed_eq_overall (t : LiveTraffic) (h : t ≠ LiveTraffic.UNKNOWN) :
    live_speed t = some t.overall_speed := by
  unfold live_speed ffi_live_speed
  by_cases hc : t.overall_encoded_speed = 0 ∧ t.breakpoint1 = 255
  · simp only [hc, if_true, reduceIte]
    simp [LiveTraffic.overall_speed, hc.1]
  · simp only [hc, if_false, h, reduceIte]
    split
    · rename_i heq
      simp [heq]
    · rename_i heq
      exfalso
      simp only [LiveTraffic.overall_speed] at heq
      omega
    · rfl

/-- Counterexample to claim C4: the record with only breakpoint1 = 1 set
(bits `1 << 28`) is neither the UNKNOWN nor the CLOSED sentinel, yet
`live_speed` returns `Some(0)` for it, because its decoded overall speed is
zero. -/
theorem live_speed_counterexample :
    live_speed ⟨268435456⟩ = some 0 ∧
    (⟨268435456⟩ : LiveTraffic) ≠ LiveTraffic.CLOSED ∧
    (⟨268435456⟩ : LiveTraffic) ≠ LiveTraffic.UNKNOWN := by
  refine ⟨by decide, by decide, by decide⟩

/-- Claim C4 amended: `live_speed` is `None` exactly on the UNKNOWN (all
zero) record; on any other record it is `Some` of the even decoded overall
speed, and hence `Some(0)` exactly when the overall encoded speed is zero -
which covers the CLOSED sentinel but also any other speed-zero record. -/
theorem live_speed_cases (t : LiveTraffic) :
    (live_speed t = none ↔ t = LiveTraffic.UNKNOWN) ∧
    (t ≠ LiveTraffic.UNKNOWN →
      live_speed t = some t.overall_speed ∧
      (live_speed t = some 0 ↔ t.overall_encoded_speed = 0)) ∧
    live_speed LiveTraffic.CLOSED = some 0 ∧
    (∀ k, live_speed t = some k → k % 2 = 0) := by
  refine ⟨⟨fun hn => ?_, fun hu => ?_⟩, fun h => ⟨live_speed_eq_overall t h, ?_⟩,
    by decide, fun k hk => ?_⟩
  · by_contra hne
    rw [live_speed_eq_overall t hne] at hn
    exact Option.noConfusion hn
  · subst hu
    decide
  · rw [live_speed_eq_overall t h]
    simp [LiveTraffic.overall_speed]
  · by_cases hu : t = LiveTraffic.UNKNOWN
    · subst hu
      have hnone : live_speed LiveTraffic.UNKNOWN = none := by decide
      rw [hnone] at hk
      exact Option.noConfusion hk
    · rw [live_speed_eq_overall t hu] at hk
      have : k = t.overall_speed := by
        injection hk with h2
        exact h2.symm
      simp [this, LiveTraffic.overall_speed, Nat.mul_mod_right]

/-- Witness for the amended C4 at the CLOSED sentinel record. -/
theorem live_speed_cases_witness :
    live_speed LiveTraffic.CLOSED = some LiveTraffic.CLOSED.overall_speed ∧
    (live_speed LiveTraffic.CLOSED = some 0 ↔
      LiveTraffic.CLOSED.overall_encoded_speed = 0) :=
  (live_speed_cases LiveTraffic.CLOSED).2.1 (by decide)

/-- `SpeedSources::FREE_FLOW` bit from `src/lib.rs`. -/
def SpeedSources.FREE_FLOW : Nat := 1

/-- `SpeedSources::CONSTRAINED_FLOW` bit from `src/lib.rs`. -/
def SpeedSources.CONSTRAINED_FLOW : Nat := 2

/-- `SpeedSources::PREDICTED_FLOW` bit from `src/lib.rs`. -/
def SpeedSources.PREDICTED_FLOW : Nat := 4

/-- `SpeedSources::CURRENT_FLOW` bit from `src/lib.rs`. -/
def SpeedSources.CURRENT_FLOW : Nat := 8

/-- The four speed fields of a directed edge in km/h, as exposed by the
`DirectedEdge` accessors `speed()`, `truck_speed()`, `free_flow_speed()` and
`constrained_flow_speed()` in `src/lib.rs`. A zero free-flow, constrained
or truck speed means the value is absent. -/
structure DirectedEdgeSpeeds where
  speed : Nat
  truck_speed : Nat
  free_flow_speed : Nat
  constrained_flow_speed : Nat
  deriving DecidableEq

/-- The constrained-flow (daytime) window: 7am-7pm by second of week. -/
def is_daytime (second_of_week : Nat) : Prop :=
  25200 ≤ second_of_week % 86400 ∧ second_of_week % 86400 < 68400

instance (s : Nat) : Decidable (is_daytime s) := by
  unfold is_daytime
  infer_instance

/-- Modelled from the spec: `GraphTile::GetSpeed` (C++, not in the crate
sources), the speed resolver behind `GraphTile::edge_speed`. Per the spec's
rules: when CURRENT_FLOW is requested and the edge has a known non-closed
live reading (a positive decoded overall speed), live wins, weighted against
the default speed chain by an age-decay percentage derived from
`seconds_from_now`; otherwise, when PREDICTED_FLOW is requested and the
second of week falls within historical coverage (a positive predicted bucket
speed), the predicted bucket is used; otherwise the constrained-flow
(7am-7pm) or free-flow (7pm-7am) typical speed when available; the default
chain falls back through the truck speed (when `is_truck` and it is nonzero)
to the default edge speed. The second component is the bitmask of the
sources that contributed. -/
def get_speed (de : DirectedEdgeSpeeds) (live : LiveTraffic) (predicted : Nat)
    (flow_mask : Nat) (second_of_week : Nat) (is_truck : Bool)
    (age_pct : Nat) : Nat × Nat :=
  let default_speed :=
    if is_truck = true ∧ de.truck_speed ≠ 0 then de.truck_speed else de.speed
  if flow_mask &&& SpeedSources.CURRENT_FLOW ≠ 0 ∧ 0 < live.overall_speed then
    ((live.overall_speed * age_pct + default_speed * (100 - age_pct)) / 100,
      SpeedSources.CURRENT_FLOW)
  else if flow_mask &&& SpeedSources.PREDICTED_FLOW ≠ 0 ∧ 0 < predicted then
    (predicted, SpeedSources.PREDICTED_FLOW)
  else if flow_mask &&& SpeedSources.CONSTRAINED_FLOW ≠ 0 ∧
      is_daytime second_of_week ∧ 0 < de.constrained_flow_speed then
    (de.constrained_flow_speed, SpeedSources.CONSTRAINED_FLOW)
  else if flow_mask &&& SpeedSources.FREE_FLOW ≠ 0 ∧
      ¬ is_daytime second_of_week ∧ 0 < de.free_flow_speed then
    (de.free_flow_speed, SpeedSources.FREE_FLOW)
  else (default_speed, 0)

/-- Claim C3: for every edge whose default speed is nonzero (an invariant of
built tiles, asserted by the crate's own tests), every combination of
requested sources, truck flag, time of week and live-data age yields a
strictly positive resolved speed - even when the live record marks the edge
closed, since a closed record has decoded overall speed 0 and so never
enters the live branch. -/
theorem edge_speed_never_zero (de : DirectedEdgeSpeeds) (live : LiveTraffic)
    (predicted : Nat) (flow_mask : Nat) (second_of_week : Nat)
    (is_truck : Bool) (age_pct : Nat) (hspeed : 0 < de.speed) :
    0 < (get_speed de live predicted flow_mask second_of_week is_truck
      age_pct).1 := by
  have hds : 0 < (if is_truck = true ∧ de.truck_speed ≠ 0 then de.truck_speed
      else de.speed) := by
    split
    · rename_i h
      exact Nat.pos_of_ne_zero h.2
    · exact hspeed
  unfold get_speed
  simp only []
  split
  · rename_i h
    have ho : 2 ≤ live.overall_speed := by
      have := h.2
      simp only [LiveTraffic.overall_speed] at this ⊢
      omega
    set ds := if is_truck = true ∧ de.truck_speed ≠ 0 then de.truck_speed
      else de.speed with hdsdef
    have h1 : age_pct ≤ live.overall_speed * age_pct :=
      Nat.le_mul_of_pos_left age_pct (by omega)
    have h2 : 100 - age_pct ≤ ds * (100 - age_pct) :=
      Nat.le_mul_of_pos_left (100 - age_pct) hds
    have h100 : 100 ≤ live.overall_speed * age_pct + ds * (100 - age_pct) := by
      rcases Nat.le_total 100 age_pct with hp | hp
      · have : 2 * 100 ≤ live.overall_speed * age_pct :=
          Nat.mul_le_mul ho hp
        omega
      · omega
    exact Nat.div_pos h100 (by omega)
  · split
    · rename_i h
      exact h.2
    · split
      · rename_i h
        exact h.2.2
      · split
        · rename_i h
          exact h.2.2
        · exact hds

/-- Witness for C3: a concrete edge with default speed 50 km/h and a CLOSED
live record resolves to a positive speed with all sources requested. -/
theorem edge_speed_never_zero_witness :
    0 < (get_speed ⟨50, 60, 0, 0⟩ LiveTraffic.CLOSED 0 15 0 true 100).1 :=
  edge_speed_never_zero ⟨50, 60, 0, 0⟩ LiveTraffic.CLOSED 0 15 0 true 100
    (by decide)

/-- Error of the C++ by-index tile accessors. -/
inductive TileAccessError
  | outOfBounds
  deriving DecidableEq

/-- The three fixed sub-arrays of a graph tile relevant to the single-record
accessors; the record contents are opaque type parameters since only
indexing is at stake. -/
structure GraphTileData (E N T : Type) where
  directededges : List E
  nodes : List N
  transitions : List T

/-- Modelled from the spec: the C++ side of `GraphTile::directededge` is not
in the crate sources; per its declaration comment it returns a non-null
pointer for an in-range index and throws an exception otherwise. -/
def ffi_directededge {E N T : Type} (t : GraphTileData E N T) (i : Nat) :
    Except TileAccessError E :=
  match t.directededges[i]? with
  | some e => Except.ok e
  | none => Except.error TileAccessError.outOfBounds

/-- Modelled from the spec: the C++ side of `GraphTile::node`, as for the
directed-edge accessor. -/
def ffi_node {E N T : Type} (t : GraphTileData E N T) (i : Nat) :
    Except TileAccessError N :=
  match t.nodes[i]? with
  | some n => Except.ok n
  | none => Except.error TileAccessError.outOfBounds

/-- Modelled from the spec: the C++ side of `GraphTile::transition`, as for
the directed-edge accessor. -/
def ffi_transition {E N T : Type} (t : GraphTileData E N T) (i : Nat) :
    Except TileAccessError T :=
  match t.transitions[i]? with
  | some tr => Except.ok tr
  | none => Except.error TileAccessError.outOfBounds

/-- `GraphTile::directededge` from `src/lib.rs`: `Ok` with a non-null pointer
becomes `Some(&record)`, anything else becomes `None`. -/
def GraphTileData.directededge {E N T : Type} (t : GraphTileData E N T)
    (i : Nat) : Option E :=
  match ffi_directededge t i with
  | Except.ok e => some e
  | Except.error _ => none

/-- `GraphTile::node` from `src/lib.rs`, analogous to `directededge`. -/
def GraphTileData.node {E N T : Type} (t : GraphTileData E N T) (i : Nat) :
    Option N :=
  match ffi_node t i with
  | Except.ok n => some n
  | Except.error _ => none

/-- `GraphTile::transition` from `src/lib.rs`, analogous to `directededge`. -/
def GraphTileData.transition {E N T : Type} (t : GraphTileData E N T)
    (i : Nat) : Option T :=
  match ffi_transition t i with
  | Except.ok tr => some tr
  | Except.error _ => none

/-- Claim C8: each single-record accessor returns `Some` of the record at the
index when it is within the corresponding sub-array cardinality, and `None`
when it is out of range; all three are total functions, so no panic is
possible. -/
theorem single_record_accessors {E N T : Type} (t : GraphTileData E N T)
    (i : Nat) :
    (∀ h : i < t.directededges.length,
      t.directededge i = some (t.directededges.get ⟨i, h⟩)) ∧
    (t.directededges.length ≤ i → t.directededge i = none) ∧
    (∀ h : i < t.nodes.length, t.node i = some (t.nodes.get ⟨i, h⟩)) ∧
    (t.nodes.length ≤ i → t.node i = none) ∧
    (∀ h : i < t.transitions.length,
      t.transition i = some (t.transitions.get ⟨i, h⟩)) ∧
    (t.transitions.length ≤ i → t.transition i = none) := by
  refine ⟨fun h => ?_, fun h => ?_, fun h => ?_, fun h => ?_, fun h => ?_,
    fun h => ?_⟩
  · simp [GraphTileData.directededge, ffi_directededge,
      List.getElem?_eq_getElem h]
  · simp [GraphTileData.directededge, ffi_directededge,
      List.getElem?_eq_none h]
  · simp [GraphTileData.node, ffi_node, List.getElem?_eq_getElem h]
  · simp [GraphTileData.node, ffi_node, List.getElem?_eq_none h]
  · simp [GraphTileData.transition, ffi_transition,
      List.getElem?_eq_getElem h]
  · simp [GraphTileData.transition, ffi_transition, List.getElem?_eq_none h]

/-- Witness for C8 on a concrete tile with one record per sub-array:
index 0 is in range for all three accessors and index 1 is out of range. -/
theorem single_record_accessors_witness :
    (GraphTileData.directededge ⟨[10], [20], [30]⟩ 0 = some 10 ∧
      GraphTileData.node ⟨[10], [20], [30]⟩ 0 = some 20 ∧
      GraphTileData.transition ⟨[10], [20], [30]⟩ 0 = some 30) ∧
    (GraphTileData.directededge ⟨[10], [20], [30]⟩ 1 = none ∧
      GraphTileData.node ⟨[10], [20], [30]⟩ 1 = none ∧
      GraphTileData.transition ⟨[10], [20], [30]⟩ 1 = none) :=
  ⟨⟨(single_record_accessors (⟨[10], [20], [30]⟩ : GraphTileData Nat Nat Nat)
        0).1 (by decide),
      (single_record_accessors (⟨[10], [20], [30]⟩ :
        GraphTileData Nat Nat Nat) 0).2.2.1 (by decide),
      (single_record_accessors (⟨[10], [20], [30]⟩ :
        GraphTileData Nat Nat Nat) 0).2.2.2.2.1 (by decide)⟩,
    ⟨(single_record_accessors (⟨[10], [20], [30]⟩ : GraphTileData Nat Nat Nat)
        1).2.1 (by decide),
      (single_record_accessors (⟨[10], [20], [30]⟩ :
        GraphTileData Nat Nat Nat) 1).2.2.2.1 (by decide),
      (single_record_accessors (⟨[10], [20], [30]⟩ :
        GraphTileData Nat Nat Nat) 1).2.2.2.2.2 (by decide)⟩⟩

/-- Response formats from `proto::options::Format` used by the facade in
`src/actor.rs`. -/
inductive RespFormat
  | json
  | gpx
  | osrm
  | pbf
  | geotiff
  deriving DecidableEq

/-- Opaque model of the decoded `proto::Api` structured response. -/
structure Api where
  raw : List Nat
  deriving DecidableEq

/-- The `Response` enum from `src/actor.rs`: structured PBF, JSON string or
raw binary payload. -/
inductive RustResponse
  | pbf (api : Api)
  | json (s : String)
  | other (bytes : List Nat)
  deriving DecidableEq

/-- `impl From<ffi::Response> for Response` from `src/actor.rs`: the backend
payload is classified solely by the declared format - `Pbf` decodes the
bytes into an `Api` (the in-code `expect` on undecodable bytes is modelled
as `none`), `Json` or `Osrm` produces the lossy-UTF-8 string variant, and
every other format passes the raw bytes through. The protobuf decoder and
the lossy UTF-8 conversion are opaque parameters. -/
def response_from (decode : List Nat → Option Api)
    (utf8_lossy : List Nat → String) (format : RespFormat)
    (data : List Nat) : Option RustResponse :=
  if format = RespFormat.pbf then
    (decode data).map RustResponse.pbf
  else if format = RespFormat.json ∨ format = RespFormat.osrm then
    some (RustResponse.json (utf8_lossy data))
  else
    some (RustResponse.other data)

/-- Claim C6: the facade classifies a backend response solely by the declared
format - `Json` and `Osrm` yield the JSON string variant, `Pbf` yields the
structured decoded `Api` variant (given the backend guarantee that the bytes
decode), and every other format yields the raw-bytes variant. -/
theorem response_classification (decode : List Nat → Option Api)
    (utf8_lossy : List Nat → String) (format : RespFormat) (data : List Nat) :
    ((format = RespFormat.json ∨ format = RespFormat.osrm) →
      response_from decode utf8_lossy format data =
        some (RustResponse.json (utf8_lossy data))) ∧
    (format = RespFormat.pbf → ∀ api, decode data = some api →
      response_from decode utf8_lossy format data =
        some (RustResponse.pbf api)) ∧
    ((format = RespFormat.gpx ∨ format = RespFormat.geotiff) →
      response_from decode utf8_lossy format data =
        some (RustResponse.other data)) := by
  refine ⟨fun h => ?_, fun h api hd => ?_, fun h => ?_⟩
  · have hp : format ≠ RespFormat.pbf := by
      rcases h with h | h <;> subst h <;> decide
    simp [response_from, hp, h]
  · subst h
    simp [response_from, hd]
  · have hp : format ≠ RespFormat.pbf := by
      rcases h with h | h <;> subst h <;> decide
    have hj : ¬ (format = RespFormat.json ∨ format = RespFormat.osrm) := by
      rcases h with h | h <;> subst h <;> decide
    simp [response_from, hp, hj]

/-- Witness for C6 with a concrete decoder and converter on all three
format classes. -/
theorem response_classification_witness :
    response_from (fun bs => some ⟨bs⟩) (fun _ => "") RespFormat.osrm [1, 2] =
      some (RustResponse.json "") ∧
    response_from (fun bs => some ⟨bs⟩) (fun _ => "") RespFormat.pbf [1, 2] =
      some (RustResponse.pbf ⟨[1, 2]⟩) ∧
    response_from (fun bs => some ⟨bs⟩) (fun _ => "") RespFormat.gpx [1, 2] =
      some (RustResponse.other [1, 2]) :=
  ⟨(response_classification (fun bs => some ⟨bs⟩) (fun _ => "")
      RespFormat.osrm [1, 2]).1 (Or.inr rfl),
    (response_classification (fun bs => some ⟨bs⟩) (fun _ => "")
      RespFormat.pbf [1, 2]).2.1 rfl ⟨[1, 2]⟩ rfl,
    (response_classification (fun bs => some ⟨bs⟩) (fun _ => "")
      RespFormat.gpx [1, 2]).2.2 (Or.inl rfl)⟩

/-- The `ignore_closures` costing option: `None` models an unset oneof,
`some b` models `HasIgnoreClosures::IgnoreClosures(b)`. Mirrors the part of
`proto::costing::Options` that `parse_json_request` touches. -/
structure CostingOptions where
  has_ignore_closures : Option Bool
  deriving DecidableEq

/-- A `proto::Costing` entry: the `has_options` oneof. -/
structure Costing where
  has_options : Option CostingOptions
  deriving DecidableEq

/-- The decoded `proto::Options` request: the `costings` map, keyed by the
costing type tag. -/
structure ReqOptions where
  costings : List (Nat × Costing)
  deriving DecidableEq

/-- The per-costing mutation inside `Actor::parse_json_request` from
`src/actor.rs`: when the costing carries options whose `ignore_closures` is
the explicit value `false`, that field is reset to unset; everything else is
left as is. -/
def normalize_costing (c : Costing) : Costing :=
  match c.has_options with
  | some o =>
      if o.has_ignore_closures = some false then
        { has_options := some { o with has_ignore_closures := none } }
      else
        c
  | none => c

/-- The loop over `options.costings.values_mut()` in
`Actor::parse_json_request`. -/
def normalize_options (o : ReqOptions) : ReqOptions :=
  { costings := o.costings.map (fun kv => (kv.1, normalize_costing kv.2)) }

/-- `Actor::parse_json_request` from `src/actor.rs`: an empty JSON string is
rejected up front; otherwise the C++ parser plus protobuf decoding (opaque
here, passed as the already-decoded result, `none` for a failure) produce an
`Options` which the workaround loop then normalizes. -/
def parse_json_request (json : String) (backend : Option ReqOptions) :
    Option ReqOptions :=
  if json = "" then none
  else backend.map normalize_options

/-- Claim C10: whenever `parse_json_request` succeeds, no costing of the
returned options carries the explicit `ignore_closures = false` value - it
has been normalized to unset - while an explicit `ignore_closures = true` is
preserved by the normalization. -/
theorem parse_json_request_normalizes (json : String)
    (backend : Option ReqOptions) (opts : ReqOptions)
    (hp : parse_json_request json backend = some opts) :
    (∀ kv ∈ opts.costings, ∀ o, kv.2.has_options = some o →
      o.has_ignore_closures ≠ some false) ∧
    (∀ c o, c.has_options = some o → o.has_ignore_closures = some true →
      ∃ o2, (normalize_costing c).has_options = some o2 ∧
        o2.has_ignore_closures = some true) := by
  constructor
  · intro kv hmem o ho
    unfold parse_json_request at hp
    split at hp
    · exact Option.noConfusion hp
    · rcases backend with _ | io
      · exact Option.noConfusion hp
      · have hp2 : some (normalize_options io) = some opts := hp
        injection hp2 with hp2
        subst hp2
        simp only [normalize_options, List.mem_map] at hmem
        obtain ⟨kv0, _, hkv⟩ := hmem
        subst hkv
        simp only at ho
        unfold normalize_costing at ho
        rcases hoo : kv0.2.has_options with _ | o0
        · rw [hoo] at ho
          have ho2 : kv0.2.has_options = some o := ho
          rw [hoo] at ho2
          exact Option.noConfusion ho2
        · rw [hoo] at ho
          have ho2 : (if o0.has_ignore_closures = some false then
              ({ has_options := some { o0 with has_ignore_closures := none } } :
                Costing)
            else kv0.2).has_options = some o := ho
          by_cases hif : o0.has_ignore_closures = some false
          · rw [if_pos hif] at ho2
            have ho3 : some (CostingOptions.mk none) = some o := ho2
            injection ho3 with ho3
            subst ho3
            decide
          · rw [if_neg hif] at ho2
            rw [hoo] at ho2
            injection ho2 with ho2
            subst ho2
            exact hif
  · intro c o ho ht
    have hne : o.has_ignore_closures ≠ some false := by
      rw [ht]
      decide
    refine ⟨o, ?_, ht⟩
    unfold normalize_costing
    rw [ho]
    show (if o.has_ignore_closures = some false then
        ({ has_options := some { o with has_ignore_closures := none } } :
          Costing)
      else c).has_options = some o
    rw [if_neg hne]
    exact ho

/-- Witness for C10: a concrete request with one costing carrying an
explicit `ignore_closures = false` and another carrying `true`. -/
theorem parse_json_request_normalizes_witness :
    (∀ kv ∈ (ReqOptions.mk
        [(0, ⟨some ⟨none⟩⟩), (1, ⟨some ⟨some true⟩⟩)]).costings, ∀ o,
      kv.2.has_options = some o → o.has_ignore_closures ≠ some false) ∧
    (∀ c o, c.has_options = some o → o.has_ignore_closures = some true →
      ∃ o2, (normalize_costing c).has_options = some o2 ∧
        o2.has_ignore_closures = some true) :=
  parse_json_request_normalizes "x"
    (some ⟨[(0, ⟨some ⟨some false⟩⟩), (1, ⟨some ⟨some true⟩⟩)]⟩)
    ⟨[(0, ⟨some ⟨none⟩⟩), (1, ⟨some ⟨some true⟩⟩)]⟩ (by decide)
